import Mathlib

/-!
Shallow embedding of the habit-tracking application in
src/HabitTracker/habit/ (models.py, views.py, forms.py).  Rows are Lean
structures, the database is a record of row lists, and each view or model
operation is a pure function from a database to a database paired with the
observable outcome of the request.  Dates are day numbers and emails are
numeric identifiers; fields that no claimed property depends on (names,
descriptions, categories, timestamps, avatars, ...) are omitted.
-/

namespace StreakUp

/-- HabitLog.STATUS_CHOICES (models.py:141-144). -/
inductive LogStatus
  | pending
  | done
deriving DecidableEq, Repr

/-- User row (models.py:29-59).  `points` is a PositiveIntegerField with
MinValueValidator(0) (models.py:37); the in-memory Python attribute is a
plain int, so it is modelled as an integer and the non-negativity is
enforced, as in the source, by validation inside `User.save`. -/
structure User where
  id : Nat
  email : Nat
  points : Int
deriving DecidableEq, Repr

/-- Habit row (models.py:75-134).  `target_per_day` is a
PositiveIntegerField with validators 1 ≤ target ≤ 99999 (models.py:102-105). -/
structure Habit where
  id : Nat
  userId : Nat
  target_per_day : Nat
deriving DecidableEq, Repr

/-- HabitLog row (models.py:140-185).  `id` is the primary key: `none`
means the instance has not been persisted yet (Django assigns the pk on
insert). -/
structure HabitLog where
  id : Option Nat
  habitId : Nat
  date : Nat
  progress : Nat
  completed : Bool
  status : LogStatus
deriving DecidableEq, Repr

/-- Streak row (models.py:191-206); only the two counters the claims are
about are kept. -/
structure Streak where
  userId : Nat
  habitId : Nat
  longest_streak : Nat
  current_streak : Nat
deriving DecidableEq, Repr

/-- Reward row (models.py:350-363): the model declares user, title,
description, `points_required` (MinValueValidator(1)), `is_claimed`
(default False) and created_at — and no `claimed_by` field. -/
structure Reward where
  id : Nat
  userId : Nat
  points_required : Nat
  is_claimed : Bool
deriving DecidableEq, Repr

/-- Friendship row (models.py:269-284), identified by its
unique_together (user, friend) pair (models.py:275). -/
structure Friendship where
  user : Nat
  friend : Nat
deriving DecidableEq, Repr

/-- FriendRequest row (models.py:287-307). -/
structure FriendRequest where
  id : Nat
  from_user : Nat
  to_user : Nat
deriving DecidableEq, Repr

/-- Validation failures raised by full_clean on the models involved in the
claims. -/
inductive ValidationError
  | progressExceedsTarget
  | uniqueViolation
  | pointsNegative
deriving DecidableEq, Repr

/-- HabitLog.clean (models.py:170-175): progress may not exceed the
habit's daily target. -/
def HabitLog.clean (l : HabitLog) (habit : Habit) : Except ValidationError Unit :=
  if l.progress > habit.target_per_day then .error .progressExceedsTarget else .ok ()

/-- Body of HabitLog.save before full_clean (models.py:179-180): completed
and status are recomputed from progress and the habit's target, discarding
whatever the caller had stored in them. -/
def HabitLog.recompute (l : HabitLog) (habit : Habit) : HabitLog :=
  { l with completed := decide (habit.target_per_day ≤ l.progress),
           status := if habit.target_per_day ≤ l.progress then .done else .pending }

/-- HabitLog.save (models.py:177-182): recompute completed/status, run
full_clean — which runs `HabitLog.clean` and Django's validate_unique for
the unique_together ('habit', 'date') constraint (models.py:155), the
latter ignoring rows with the same pk — then insert (pk `none`) or update
(pk `some`) the row.  `recompute` changes neither progress, habitId, date
nor the pk, so the two validation guards are stated on those fields of `l`
directly.  A row update is modelled as removing the old row and adding the
new one.  Returns the saved instance, the new log table and the next fresh
pk; an error means nothing was persisted. -/
def HabitLog.save (l : HabitLog) (habit : Habit) (logs : List HabitLog) (nextId : Nat) :
    Except ValidationError (HabitLog × List HabitLog × Nat) :=
  if l.progress > habit.target_per_day then .error .progressExceedsTarget
  else if ∃ x ∈ logs, x.habitId = l.habitId ∧ x.date = l.date ∧ x.id ≠ l.id then
    .error .uniqueViolation
  else
    match l.id with
    | none =>
        .ok ({ l.recompute habit with id := some nextId },
             { l.recompute habit with id := some nextId } :: logs, nextId + 1)
    | some i =>
        .ok (l.recompute habit,
             l.recompute habit :: logs.filter (fun x => x.id != some i), nextId)

/-- Python's round(): round half to even, on exact rationals. -/
def pyRound (q : ℚ) : ℤ :=
  if q - ⌊q⌋ < 1/2 then ⌊q⌋
  else if 1/2 < q - ⌊q⌋ then ⌊q⌋ + 1
  else if ⌊q⌋ % 2 = 0 then ⌊q⌋ else ⌊q⌋ + 1

/-- Python's round(q, 2): two decimal places. -/
def pyRound2 (q : ℚ) : ℚ := (pyRound (q * 100) : ℚ) / 100

/-- HabitLog.completion_value (models.py:164-165):
round((progress / habit.target_per_day) * 100, 2), with no clamp. -/
def HabitLog.completion_value (progress target : Nat) : ℚ :=
  pyRound2 ((progress : ℚ) / (target : ℚ) * 100)

/-- Modelled from the spec (§4.1): the displayed completion percentage is
`(progress / target_per_day) * 100`, rounded to 2 decimal places, with no
upper clamp applied. -/
def specCompletionDisplay (progress target : Nat) : ℚ :=
  pyRound2 ((progress : ℚ) / (target : ℚ) * 100)

/-- The application state: one list of rows per table, plus the fresh-pk
counters of the tables whose primary keys the code manipulates. -/
structure DB where
  users : List User
  habits : List Habit
  logs : List HabitLog
  streaks : List Streak
  rewards : List Reward
  friendships : List Friendship
  friendRequests : List FriendRequest
  nextUserId : Nat
  nextHabitId : Nat
  nextLogId : Nat
  nextRewardId : Nat
deriving DecidableEq, Repr

/-- The empty database. -/
def initDB : DB := ⟨[], [], [], [], [], [], [], 0, 0, 0, 0⟩

/-- Observable result of one request: a rendered page or redirect with a
success/error message, a 404, a form re-render with validation errors, or
an uncaught exception (HTTP 500). -/
inductive Outcome
  | success
  | redirectEdit (pk : Nat)
  | notFound
  | invalidForm
  | errorMsg
  | crashAttributeError
  | crashDoesNotExist
  | crashValidation
deriving DecidableEq, Repr

/-- User.save (models.py:52-56): full_clean then super().save().
full_clean validates points ≥ 0 (PositiveIntegerField with
MinValueValidator(0), models.py:37); on success the stored row with the
same pk is overwritten. -/
def User.save (users : List User) (u : User) : Except ValidationError (List User) :=
  if u.points < 0 then .error .pointsNegative
  else .ok (users.map (fun x => if x.id = u.id then u else x))

/-- register (views.py:117-131) with UserRegisterForm (forms.py:16-53):
clean_email rejects an already-used email; a created user starts with the
model default points = 0 (models.py:37).  Username/password handling is
omitted. -/
def register (db : DB) (email : Nat) : DB × Outcome :=
  if ∃ u ∈ db.users, u.email = email then (db, .invalidForm)
  else ({ db with users := ⟨db.nextUserId, email, 0⟩ :: db.users,
                  nextUserId := db.nextUserId + 1 }, .success)

/-- habit_add (views.py:297-308) with HabitForm (forms.py:95-159):
clean_target_per_day requires 1 ≤ target ≤ 99999; on success the habit is
created for the logged-in user. -/
def habit_add (db : DB) (uid : Nat) (target : Nat) : DB × Outcome :=
  if 1 ≤ target ∧ target ≤ 99999 then
    ({ db with habits := ⟨db.nextHabitId, uid, target⟩ :: db.habits,
               nextHabitId := db.nextHabitId + 1 }, .success)
  else (db, .invalidForm)

/-- habit_delete (views.py:359-365): deleting a habit cascades to its logs
and streaks (on_delete=CASCADE, models.py:146,193). -/
def habit_delete (db : DB) (uid : Nat) (pk : Nat) : DB × Outcome :=
  match db.habits.find? (fun h => h.id == pk && h.userId == uid) with
  | none => (db, .notFound)
  | some _ =>
      ({ db with habits := db.habits.filter (fun h => h.id != pk),
                 logs := db.logs.filter (fun l => l.habitId != pk),
                 streaks := db.streaks.filter (fun s => s.habitId != pk) }, .success)

/-- log_add (views.py:479-513): 404 unless the habit belongs to the user;
if a log for (habit, today) already exists, redirect to log_edit of that
row; otherwise validate the posted form — HabitLogForm.clean_progress
(forms.py:187-194) rejects progress > target_per_day — and call
HabitLog.save on a fresh instance.  The posted status field is discarded
by save (models.py:179-180) and the view forces log.habit to the habit of
the URL (views.py:495), so neither is a parameter here.  A ValidationError
raised by save propagates uncaught (HTTP 500) and nothing is persisted. -/
def log_add (db : DB) (uid habitId today postDate postProgress : Nat) : DB × Outcome :=
  match db.habits.find? (fun h => h.id == habitId && h.userId == uid) with
  | none => (db, .notFound)
  | some habit =>
      match db.logs.find? (fun l => l.habitId == habitId && l.date == today) with
      | some ex => (db, .redirectEdit (ex.id.getD 0))
      | none =>
          if postProgress > habit.target_per_day then (db, .invalidForm)
          else
            match HabitLog.save ⟨none, habitId, postDate, postProgress, false, .pending⟩
                habit db.logs db.nextLogId with
            | .error _ => (db, .crashValidation)
            | .ok (_, logs1, n1) => ({ db with logs := logs1, nextLogId := n1 }, .success)

/-- log_edit (views.py:446-469): 404 unless the log exists and its habit
belongs to the user.  HabitLogForm is built here without the habit kwarg
(views.py:449), so clean_progress is skipped; the posted habit (a
ModelChoiceField that must name an existing habit) ends up as the log's
habit because the guard at views.py:452 is a no-op.  HabitLog.save then
updates the row; a ValidationError from its full_clean propagates
uncaught (HTTP 500) and nothing is persisted. -/
def log_edit (db : DB) (uid pk postHabit postDate postProgress : Nat) : DB × Outcome :=
  match db.logs.find? (fun l => l.id == some pk) with
  | none => (db, .notFound)
  | some log =>
      match db.habits.find? (fun h => h.id == log.habitId && h.userId == uid) with
      | none => (db, .notFound)
      | some _ =>
          match db.habits.find? (fun h => h.id == postHabit) with
          | none => (db, .invalidForm)
          | some habit2 =>
              match HabitLog.save
                  { log with habitId := postHabit, date := postDate, progress := postProgress }
                  habit2 db.logs db.nextLogId with
              | .error _ => (db, .crashValidation)
              | .ok (_, logs1, n1) => ({ db with logs := logs1, nextLogId := n1 }, .success)

/-- No code under src/HabitTracker/habit/ ever writes the streak counters;
a Streak row comes into existence with the declared field defaults
longest_streak = 0 and current_streak = 0 (models.py:196-197). -/
def streak_create (db : DB) (uid habitId : Nat) : DB × Outcome :=
  ({ db with streaks := ⟨uid, habitId, 0, 0⟩ :: db.streaks }, .success)

/-- Creation of a Reward row: RewardForm (forms.py:270-281) and the model
validator (models.py:354) require points_required ≥ 1, and is_claimed
defaults to False (models.py:355). -/
def reward_create (db : DB) (uid pr : Nat) : DB × Outcome :=
  if 1 ≤ pr then
    ({ db with rewards := ⟨db.nextRewardId, uid, pr, false⟩ :: db.rewards,
               nextRewardId := db.nextRewardId + 1 }, .success)
  else (db, .invalidForm)

/-- reward_claim (views.py:259-268): 404 if the reward does not exist; if
user.points >= reward.points_required, the view debits the points and
calls user.save(), and only then evaluates reward.claimed_by — but Reward
(models.py:350-363) declares no claimed_by field, so this attribute
access raises AttributeError after the debited user row was already
committed; is_claimed is never touched.  Otherwise it reports "Not enough
points" and changes nothing. -/
def reward_claim (db : DB) (uid : Nat) (pk : Nat) : DB × Outcome :=
  match db.rewards.find? (fun r => r.id == pk) with
  | none => (db, .notFound)
  | some reward =>
      match db.users.find? (fun u => u.id == uid) with
      | none => (db, .notFound)
      | some user =>
          if (reward.points_required : Int) ≤ user.points then
            match User.save db.users { user with points := user.points - (reward.points_required : Int) } with
            | .error _ => (db, .crashValidation)
            | .ok users1 => ({ db with users := users1 }, .crashAttributeError)
          else (db, .errorMsg)

/-- friend_request_send (views.py:147-164) with FriendRequestForm
(forms.py:241-266).  clean_to_user_email looks the email up: if no user
has it, a ValidationError is raised and the form page is re-rendered with
the message.  If a user is found, forms.py:263 evaluates
`to_user == self.instance.from_user` on the form's blank unsaved
FriendRequest instance, whose non-null from_user FK is unset — Django
raises RelatedObjectDoesNotExist there; and even past that, views.py:151
reads form.cleaned_data with the key email while the form names the field
to_user_email, a KeyError.  Either way the request dies with an uncaught
exception (HTTP 500) before anything is validated or persisted: the
self-request and duplicate branches of views.py:154-158 and
FriendRequest.clean (models.py:301-307) are unreachable from this view. -/
def friend_request_send (db : DB) (uid : Nat) (postEmail : Nat) : DB × Outcome :=
  match db.users.find? (fun u => u.email == postEmail) with
  | none => (db, .invalidForm)
  | some _ => (db, .crashDoesNotExist)

/-- Friendship.objects.get_or_create(user=a, friend=b) (views.py:169-170):
returns the existing row if the (user, friend) pair exists, otherwise
creates it.  get_or_create does not run Friendship.clean. -/
def get_or_create_friendship (fs : List Friendship) (a b : Nat) : List Friendship :=
  if ∃ x ∈ fs, x.user = a ∧ x.friend = b then fs else ⟨a, b⟩ :: fs

/-- friend_request_accept (views.py:167-173): 404 unless a request with
this pk is addressed to the logged-in user; then both directed Friendship
rows are created with get_or_create and the request row is deleted. -/
def friend_request_accept (db : DB) (uid : Nat) (pk : Nat) : DB × Outcome :=
  match db.friendRequests.find? (fun fr => fr.id == pk && fr.to_user == uid) with
  | none => (db, .notFound)
  | some fr =>
      ({ db with
          friendships := get_or_create_friendship
            (get_or_create_friendship db.friendships uid fr.from_user) fr.from_user uid,
          friendRequests := db.friendRequests.filter (fun x => x.id != pk) }, .success)

/-- friend_request_reject (views.py:176-180): deletes the request only. -/
def friend_request_reject (db : DB) (uid : Nat) (pk : Nat) : DB × Outcome :=
  match db.friendRequests.find? (fun fr => fr.id == pk && fr.to_user == uid) with
  | none => (db, .notFound)
  | some _ =>
      ({ db with friendRequests := db.friendRequests.filter (fun x => x.id != pk) }, .success)

/-- friend_remove (views.py:183-188): looks the friendship up (pk is
abstracted by its unique (user, friend) pair, models.py:275), then calls
friendship.friendship_reverse() — a method Friendship does not define
(models.py:269-284) — so the view raises AttributeError before deleting
anything. -/
def friend_remove (db : DB) (uid fid : Nat) : DB × Outcome :=
  match db.friendships.find? (fun f => f.user == uid && f.friend == fid) with
  | none => (db, .notFound)
  | some _ => (db, .crashAttributeError)

/-- The operations of the system that create or mutate rows. -/
inductive Op
  | register (email : Nat)
  | habitAdd (uid target : Nat)
  | habitDelete (uid pk : Nat)
  | logAdd (uid habitId today postDate postProgress : Nat)
  | logEdit (uid pk postHabit postDate postProgress : Nat)
  | streakCreate (uid habitId : Nat)
  | rewardCreate (uid pr : Nat)
  | rewardClaim (uid pk : Nat)
  | friendRequestSend (uid email : Nat)
  | friendRequestAccept (uid pk : Nat)
  | friendRequestReject (uid pk : Nat)
  | friendRemove (uid fid : Nat)
deriving DecidableEq, Repr

/-- Dispatch one request. -/
def applyOp (db : DB) : Op → DB × Outcome
  | .register e => register db e
  | .habitAdd uid t => habit_add db uid t
  | .habitDelete uid pk => habit_delete db uid pk
  | .logAdd uid h today d p => log_add db uid h today d p
  | .logEdit uid pk h d p => log_edit db uid pk h d p
  | .streakCreate uid h => streak_create db uid h
  | .rewardCreate uid pr => reward_create db uid pr
  | .rewardClaim uid pk => reward_claim db uid pk
  | .friendRequestSend uid e => friend_request_send db uid e
  | .friendRequestAccept uid pk => friend_request_accept db uid pk
  | .friendRequestReject uid pk => friend_request_reject db uid pk
  | .friendRemove uid f => friend_remove db uid f

/-- States reachable from the empty database by any sequence of requests. -/
inductive Reachable : DB → Prop
  | init : Reachable initDB
  | step {db : DB} (op : Op) : Reachable db → Reachable (applyOp db op).1

/-- Run a list of requests, keeping the states. -/
def runOps (db : DB) (ops : List Op) : DB :=
  ops.foldl (fun d o => (applyOp d o).1) db

/-- The (habit, date) pair of a log row, unique by models.py:155. -/
def LogKey (l : HabitLog) : Nat × Nat := (l.habitId, l.date)

/-- Concrete database for evaluating reward_claim at a failing input: one
user with 100 points, one unclaimed reward costing 50 points. -/
def dbClaim : DB :=
  { users := [⟨0, 7, 100⟩], habits := [], logs := [], streaks := [],
    rewards := [⟨0, 0, 50, false⟩], friendships := [], friendRequests := [],
    nextUserId := 1, nextHabitId := 0, nextLogId := 0, nextRewardId := 1 }

/-- Concrete database for evaluating friend_request_send at a failing
input: user 0 (email 7) and user 1 (email 8) who are already friends. -/
def dbSend : DB :=
  { users := [⟨0, 7, 0⟩, ⟨1, 8, 0⟩], habits := [], logs := [], streaks := [],
    rewards := [], friendships := [⟨0, 1⟩], friendRequests := [],
    nextUserId := 2, nextHabitId := 0, nextLogId := 0, nextRewardId := 0 }

/-- Concrete database with a user who cannot afford the only reward. -/
def dbPoor : DB :=
  { users := [⟨0, 7, 10⟩], habits := [], logs := [], streaks := [],
    rewards := [⟨0, 0, 50, false⟩], friendships := [], friendRequests := [],
    nextUserId := 1, nextHabitId := 0, nextLogId := 0, nextRewardId := 1 }

/-- Concrete database with one pending friend request from user 1 to
user 2. -/
def dbAccept : DB :=
  { users := [⟨1, 7, 0⟩, ⟨2, 8, 0⟩], habits := [], logs := [], streaks := [],
    rewards := [], friendships := [], friendRequests := [⟨0, 1, 2⟩],
    nextUserId := 3, nextHabitId := 0, nextLogId := 0, nextRewardId := 0 }

/-- Concrete database with one user owning one habit whose daily target
is 5 and no logs yet. -/
def dbHabit : DB :=
  { users := [⟨0, 7, 0⟩], habits := [⟨0, 0, 5⟩], logs := [], streaks := [],
    rewards := [], friendships := [], friendRequests := [],
    nextUserId := 1, nextHabitId := 1, nextLogId := 0, nextRewardId := 0 }

/-- For all rows of a user table, the points balance is non-negative. -/
def PointsInv (db : DB) : Prop := ∀ u ∈ db.users, 0 ≤ u.points

/-- For all streak rows, the longest streak bounds the current one. -/
def StreakInv (db : DB) : Prop :=
  ∀ s ∈ db.streaks, s.current_streak ≤ s.longest_streak

/-- Every stored log has a pk and (habit, date) pairs are unique. -/
def LogsInv (db : DB) : Prop :=
  (∀ l ∈ db.logs, l.id ≠ none) ∧ (db.logs.map LogKey).Nodup

theorem HabitLog.recompute_status_iff (l : HabitLog) (habit : Habit) :
    ((l.recompute habit).status = .done ↔ (l.recompute habit).completed = true) := by
  unfold HabitLog.recompute
  by_cases hc : habit.target_per_day ≤ l.progress <;> simp [hc]

/-- C1: after every successful HabitLog save the persisted row satisfies
completed = (progress ≥ target_per_day) and status = done exactly when
completed is true, with progress unchanged — whatever values the caller
had supplied for completed or status, save recomputes both from progress
alone (models.py:177-182). -/
theorem save_recomputes_completed_and_status (l : HabitLog) (habit : Habit)
    (logs : List HabitLog) (n : Nat) (l1 : HabitLog) (logs1 : List HabitLog) (n1 : Nat)
    (h : HabitLog.save l habit logs n = .ok (l1, logs1, n1)) :
    l1.completed = decide (habit.target_per_day ≤ l.progress) ∧
    (l1.status = .done ↔ l1.completed = true) ∧
    l1.progress = l.progress ∧ l1 ∈ logs1 := by
  unfold HabitLog.save at h
  split at h
  · exact absurd h (by simp)
  split at h
  · exact absurd h (by simp)
  split at h
  all_goals
    simp only [Except.ok.injEq, Prod.mk.injEq] at h
    obtain ⟨h1, h2, h3⟩ := h
    subst h1
    subst h2
    refine ⟨rfl, ?_, rfl, List.mem_cons_self _ _⟩
    exact HabitLog.recompute_status_iff l habit

theorem HabitLog.save_preserves_logsOk (l : HabitLog) (habit : Habit)
    (logs : List HabitLog) (n : Nat) (l1 : HabitLog) (logs1 : List HabitLog) (n1 : Nat)
    (hids : ∀ x ∈ logs, x.id ≠ none) (hnd : (logs.map LogKey).Nodup)
    (hok : HabitLog.save l habit logs n = .ok (l1, logs1, n1)) :
    (∀ x ∈ logs1, x.id ≠ none) ∧ (logs1.map LogKey).Nodup := by
  unfold HabitLog.save at hok
  split at hok
  · exact absurd hok (by simp)
  split at hok
  · exact absurd hok (by simp)
  next hnodup =>
  split at hok
  next hid =>
    simp only [Except.ok.injEq, Prod.mk.injEq] at hok
    obtain ⟨h1, h2, h3⟩ := hok
    subst h2
    constructor
    · intro x hx
      rcases List.mem_cons.mp hx with rfl | hx
      · simp
      · exact hids x hx
    · rw [List.map_cons, List.nodup_cons]
      refine ⟨?_, hnd⟩
      intro hmem
      rcases List.mem_map.mp hmem with ⟨y, hy, hkey⟩
      apply hnodup
      refine ⟨y, hy, ?_, ?_, ?_⟩
      · exact congrArg Prod.fst hkey
      · exact congrArg Prod.snd hkey
      · intro hcontra
        exact hids y hy (hcontra.trans hid)
  next i hid =>
    simp only [Except.ok.injEq, Prod.mk.injEq] at hok
    obtain ⟨h1, h2, h3⟩ := hok
    subst h2
    constructor
    · intro x hx
      rcases List.mem_cons.mp hx with rfl | hx
      · show l.id ≠ none
        rw [hid]
        simp
      · exact hids x (List.mem_of_mem_filter hx)
    · rw [List.map_cons, List.nodup_cons]
      constructor
      · intro hmem
        rcases List.mem_map.mp hmem with ⟨y, hy, hkey⟩
        have hymem : y ∈ logs := (List.mem_filter.mp hy).1
        have hyid : (y.id != some i) = true := (List.mem_filter.mp hy).2
        apply hnodup
        refine ⟨y, hymem, congrArg Prod.fst hkey, congrArg Prod.snd hkey, ?_⟩
        rw [hid]
        exact bne_iff_ne.mp hyid
      · exact ((List.filter_sublist _).map LogKey).nodup hnd

theorem register_frame (db : DB) (e : Nat) :
    ((register db e).1).logs = db.logs ∧ ((register db e).1).streaks = db.streaks := by
  unfold register
  split <;> exact ⟨rfl, rfl⟩

theorem habit_add_frame (db : DB) (uid t : Nat) :
    ((habit_add db uid t).1).users = db.users ∧
    ((habit_add db uid t).1).logs = db.logs ∧
    ((habit_add db uid t).1).streaks = db.streaks := by
  unfold habit_add
  split <;> exact ⟨rfl, rfl, rfl⟩

theorem habit_delete_frame (db : DB) (uid pk : Nat) :
    ((habit_delete db uid pk).1).users = db.users := by
  unfold habit_delete
  split <;> rfl

theorem log_add_frame (db : DB) (uid h t d p : Nat) :
    ((log_add db uid h t d p).1).users = db.users ∧
    ((log_add db uid h t d p).1).streaks = db.streaks := by
  unfold log_add
  repeat' split
  all_goals exact ⟨rfl, rfl⟩

theorem log_edit_frame (db : DB) (uid pk h d p : Nat) :
    ((log_edit db uid pk h d p).1).users = db.users ∧
    ((log_edit db uid pk h d p).1).streaks = db.streaks := by
  unfold log_edit
  repeat' split
  all_goals exact ⟨rfl, rfl⟩

theorem streak_create_frame (db : DB) (uid h : Nat) :
    ((streak_create db uid h).1).users = db.users ∧
    ((streak_create db uid h).1).logs = db.logs :=
  ⟨rfl, rfl⟩

theorem reward_create_frame (db : DB) (uid pr : Nat) :
    ((reward_create db uid pr).1).users = db.users ∧
    ((reward_create db uid pr).1).logs = db.logs ∧
    ((reward_create db uid pr).1).streaks = db.streaks := by
  unfold reward_create
  split <;> exact ⟨rfl, rfl, rfl⟩

theorem reward_claim_frame (db : DB) (uid pk : Nat) :
    ((reward_claim db uid pk).1).logs = db.logs ∧
    ((reward_claim db uid pk).1).streaks = db.streaks := by
  unfold reward_claim
  repeat' split
  all_goals exact ⟨rfl, rfl⟩

theorem friend_request_send_frame (db : DB) (uid e : Nat) :
    ((friend_request_send db uid e).1) = db := by
  unfold friend_request_send
  split <;> rfl

theorem friend_request_accept_frame (db : DB) (uid pk : Nat) :
    ((friend_request_accept db uid pk).1).users = db.users ∧
    ((friend_request_accept db uid pk).1).logs = db.logs ∧
    ((friend_request_accept db uid pk).1).streaks = db.streaks := by
  unfold friend_request_accept
  split <;> exact ⟨rfl, rfl, rfl⟩

theorem friend_request_reject_frame (db : DB) (uid pk : Nat) :
    ((friend_request_reject db uid pk).1).users = db.users ∧
    ((friend_request_reject db uid pk).1).logs = db.logs ∧
    ((friend_request_reject db uid pk).1).streaks = db.streaks := by
  unfold friend_request_reject
  split <;> exact ⟨rfl, rfl, rfl⟩

theorem friend_remove_frame (db : DB) (uid f : Nat) :
    ((friend_remove db uid f).1) = db := by
  unfold friend_remove
  split <;> rfl

theorem pointsInv_step (db : DB) (op : Op) (h : PointsInv db) :
    PointsInv (applyOp db op).1 := by
  cases op with
  | register e =>
      show PointsInv (register db e).1
      unfold register
      split
      · exact h
      · intro u hu
        rcases List.mem_cons.mp hu with rfl | hu
        · exact le_refl 0
        · exact h u hu
  | habitAdd uid t =>
      show PointsInv (habit_add db uid t).1
      intro u hu
      rw [(habit_add_frame db uid t).1] at hu
      exact h u hu
  | habitDelete uid pk =>
      show PointsInv (habit_delete db uid pk).1
      intro u hu
      rw [habit_delete_frame db uid pk] at hu
      exact h u hu
  | logAdd uid hb t d p =>
      show PointsInv (log_add db uid hb t d p).1
      intro u hu
      rw [(log_add_frame db uid hb t d p).1] at hu
      exact h u hu
  | logEdit uid pk hb d p =>
      show PointsInv (log_edit db uid pk hb d p).1
      intro u hu
      rw [(log_edit_frame db uid pk hb d p).1] at hu
      exact h u hu
  | streakCreate uid hb =>
      show PointsInv (streak_create db uid hb).1
      intro u hu
      rw [(streak_create_frame db uid hb).1] at hu
      exact h u hu
  | rewardCreate uid pr =>
      show PointsInv (reward_create db uid pr).1
      intro u hu
      rw [(reward_create_frame db uid pr).1] at hu
      exact h u hu
  | rewardClaim uid pk =>
      show PointsInv (reward_claim db uid pk).1
      unfold reward_claim
      split
      · exact h
      split
      · exact h
      next user hu =>
      split
      · split
        next hsave => exact h
        next users1 hsave =>
          intro u humem
          unfold User.save at hsave
          split at hsave
          · exact absurd hsave (by simp)
          next hnonneg =>
            simp only [Except.ok.injEq] at hsave
            subst hsave
            rcases List.mem_map.mp humem with ⟨a, ha, heq⟩
            by_cases hca : a.id = user.id
            · rw [if_pos hca] at heq
              subst heq
              exact Int.not_lt.mp hnonneg
            · rw [if_neg hca] at heq
              subst heq
              exact h a ha
      · exact h
  | friendRequestSend uid e =>
      show PointsInv (friend_request_send db uid e).1
      rw [friend_request_send_frame db uid e]
      exact h
  | friendRequestAccept uid pk =>
      show PointsInv (friend_request_accept db uid pk).1
      intro u hu
      rw [(friend_request_accept_frame db uid pk).1] at hu
      exact h u hu
  | friendRequestReject uid pk =>
      show PointsInv (friend_request_reject db uid pk).1
      intro u hu
      rw [(friend_request_reject_frame db uid pk).1] at hu
      exact h u hu
  | friendRemove uid f =>
      show PointsInv (friend_remove db uid f).1
      rw [friend_remove_frame db uid f]
      exact h

theorem streakInv_step (db : DB) (op : Op) (h : StreakInv db) :
    StreakInv (applyOp db op).1 := by
  cases op with
  | register e =>
      show StreakInv (register db e).1
      intro s hs
      rw [(register_frame db e).2] at hs
      exact h s hs
  | habitAdd uid t =>
      show StreakInv (habit_add db uid t).1
      intro s hs
      rw [(habit_add_frame db uid t).2.2] at hs
      exact h s hs
  | habitDelete uid pk =>
      show StreakInv (habit_delete db uid pk).1
      unfold habit_delete
      split
      · exact h
      · intro s hs
        exact h s (List.mem_of_mem_filter hs)
  | logAdd uid hb t d p =>
      show StreakInv (log_add db uid hb t d p).1
      intro s hs
      rw [(log_add_frame db uid hb t d p).2] at hs
      exact h s hs
  | logEdit uid pk hb d p =>
      show StreakInv (log_edit db uid pk hb d p).1
      intro s hs
      rw [(log_edit_frame db uid pk hb d p).2] at hs
      exact h s hs
  | streakCreate uid hb =>
      show StreakInv (streak_create db uid hb).1
      intro s hs
      rcases List.mem_cons.mp hs with rfl | hs
      · exact Nat.le_refl 0
      · exact h s hs
  | rewardCreate uid pr =>
      show StreakInv (reward_create db uid pr).1
      intro s hs
      rw [(reward_create_frame db uid pr).2.2] at hs
      exact h s hs
  | rewardClaim uid pk =>
      show StreakInv (reward_claim db uid pk).1
      intro s hs
      rw [(reward_claim_frame db uid pk).2] at hs
      exact h s hs
  | friendRequestSend uid e =>
      show StreakInv (friend_request_send db uid e).1
      rw [friend_request_send_frame db uid e]
      exact h
  | friendRequestAccept uid pk =>
      show StreakInv (friend_request_accept db uid pk).1
      intro s hs
      rw [(friend_request_accept_frame db uid pk).2.2] at hs
      exact h s hs
  | friendRequestReject uid pk =>
      show StreakInv (friend_request_reject db uid pk).1
      intro s hs
      rw [(friend_request_reject_frame db uid pk).2.2] at hs
      exact h s hs
  | friendRemove uid f =>
      show StreakInv (friend_remove db uid f).1
      rw [friend_remove_frame db uid f]
      exact h

theorem logsInv_filter (logs : List HabitLog) (p : HabitLog → Bool)
    (hids : ∀ l ∈ logs, l.id ≠ none) (hnd : (logs.map LogKey).Nodup) :
    (∀ l ∈ logs.filter p, l.id ≠ none) ∧ ((logs.filter p).map LogKey).Nodup :=
  ⟨fun l hl => hids l (List.mem_of_mem_filter hl),
   ((List.filter_sublist _).map LogKey).nodup hnd⟩

theorem logsInv_step (db : DB) (op : Op) (h : LogsInv db) :
    LogsInv (applyOp db op).1 := by
  obtain ⟨hids, hnd⟩ := h
  cases op with
  | register e =>
      show LogsInv (register db e).1
      refine ⟨?_, ?_⟩ <;> rw [(register_frame db e).1]
      · exact hids
      · exact hnd
  | habitAdd uid t =>
      show LogsInv (habit_add db uid t).1
      refine ⟨?_, ?_⟩ <;> rw [(habit_add_frame db uid t).2.1]
      · exact hids
      · exact hnd
  | habitDelete uid pk =>
      show LogsInv (habit_delete db uid pk).1
      unfold habit_delete
      split
      · exact ⟨hids, hnd⟩
      · exact logsInv_filter db.logs _ hids hnd
  | logAdd uid hb t d p =>
      show LogsInv (log_add db uid hb t d p).1
      unfold log_add
      split
      · exact ⟨hids, hnd⟩
      split
      · exact ⟨hids, hnd⟩
      split
      · exact ⟨hids, hnd⟩
      split
      · exact ⟨hids, hnd⟩
      next a logs1 n1 hsave =>
        exact HabitLog.save_preserves_logsOk _ _ _ _ _ _ _ hids hnd hsave
  | logEdit uid pk hb d p =>
      show LogsInv (log_edit db uid pk hb d p).1
      unfold log_edit
      split
      · exact ⟨hids, hnd⟩
      split
      · exact ⟨hids, hnd⟩
      split
      · exact ⟨hids, hnd⟩
      split
      · exact ⟨hids, hnd⟩
      next a logs1 n1 hsave =>
        exact HabitLog.save_preserves_logsOk _ _ _ _ _ _ _ hids hnd hsave
  | streakCreate uid hb =>
      show LogsInv (streak_create db uid hb).1
      refine ⟨?_, ?_⟩ <;> rw [(streak_create_frame db uid hb).2]
      · exact hids
      · exact hnd
  | rewardCreate uid pr =>
      show LogsInv (reward_create db uid pr).1
      refine ⟨?_, ?_⟩ <;> rw [(reward_create_frame db uid pr).2.1]
      · exact hids
      · exact hnd
  | rewardClaim uid pk =>
      show LogsInv (reward_claim db uid pk).1
      refine ⟨?_, ?_⟩ <;> rw [(reward_claim_frame db uid pk).1]
      · exact hids
      · exact hnd
  | friendRequestSend uid e =>
      show LogsInv (friend_request_send db uid e).1
      rw [friend_request_send_frame db uid e]
      exact ⟨hids, hnd⟩
  | friendRequestAccept uid pk =>
      show LogsInv (friend_request_accept db uid pk).1
      refine ⟨?_, ?_⟩ <;> rw [(friend_request_accept_frame db uid pk).2.1]
      · exact hids
      · exact hnd
  | friendRequestReject uid pk =>
      show LogsInv (friend_request_reject db uid pk).1
      refine ⟨?_, ?_⟩ <;> rw [(friend_request_reject_frame db uid pk).2.1]
      · exact hids
      · exact hnd
  | friendRemove uid f =>
      show LogsInv (friend_remove db uid f).1
      rw [friend_remove_frame db uid f]
      exact ⟨hids, hnd⟩

theorem pointsInv_reachable (db : DB) (h : Reachable db) : PointsInv db := by
  induction h with
  | init => intro u hu; exact absurd hu (List.not_mem_nil u)
  | step op hr ih => exact pointsInv_step _ op ih

theorem streakInv_reachable (db : DB) (h : Reachable db) : StreakInv db := by
  induction h with
  | init => intro s hs; exact absurd hs (List.not_mem_nil s)
  | step op hr ih => exact streakInv_step _ op ih

theorem logsInv_reachable (db : DB) (h : Reachable db) : LogsInv db := by
  induction h with
  | init => exact ⟨fun l hl => absurd hl (List.not_mem_nil l), List.nodup_nil⟩
  | step op hr ih => exact logsInv_step _ op ih

theorem reachable_runOps {db : DB} (h : Reachable db) (ops : List Op) :
    Reachable (runOps db ops) := by
  induction ops generalizing db with
  | nil => exact h
  | cons o os ih => exact ih (Reachable.step o h)

theorem get_or_create_friendship_mem (fs : List Friendship) (a b : Nat) :
    ∃ f ∈ get_or_create_friendship fs a b, f.user = a ∧ f.friend = b := by
  unfold get_or_create_friendship
  split
  next hex => exact hex
  next => exact ⟨⟨a, b⟩, List.mem_cons_self _ _, rfl, rfl⟩

theorem get_or_create_friendship_mono (fs : List Friendship) (a b : Nat)
    (f : Friendship) (hf : f ∈ fs) : f ∈ get_or_create_friendship fs a b := by
  unfold get_or_create_friendship
  split
  · exact hf
  · exact List.mem_cons_of_mem _ hf

theorem pyRound_intCast (z : ℤ) : pyRound (z : ℚ) = z := by
  unfold pyRound
  rw [Int.floor_intCast, sub_self]
  norm_num

/-- Witness for C1: saving a log with progress 3 of target 5 whose caller
had preset completed = True and status = done yields a persisted row with
completed = False and status = pending. -/
theorem save_recomputes_completed_and_status_witness :
    (⟨some 0, 0, 0, 3, false, .pending⟩ : HabitLog).completed = decide ((5:Nat) ≤ 3) ∧
    ((⟨some 0, 0, 0, 3, false, .pending⟩ : HabitLog).status = .done ↔
      (⟨some 0, 0, 0, 3, false, .pending⟩ : HabitLog).completed = true) ∧
    (⟨some 0, 0, 0, 3, false, .pending⟩ : HabitLog).progress = 3 ∧
    (⟨some 0, 0, 0, 3, false, .pending⟩ : HabitLog) ∈
      [(⟨some 0, 0, 0, 3, false, .pending⟩ : HabitLog)] :=
  save_recomputes_completed_and_status ⟨none, 0, 0, 3, true, .done⟩ ⟨0, 0, 5⟩ [] 0
    ⟨some 0, 0, 0, 3, false, .pending⟩ [⟨some 0, 0, 0, 3, false, .pending⟩] 1 (by rfl)

/-- C2: saving a log whose progress exceeds the habit's daily target is
rejected with a ValidationError before persistence — by HabitLog.clean
inside save (models.py:170-182) and by HabitLogForm.clean_progress in the
log_add view (forms.py:187-194) — and no log row is created or updated. -/
theorem save_rejects_progress_above_target (l : HabitLog) (habit : Habit)
    (logs : List HabitLog) (n : Nat) (hgt : habit.target_per_day < l.progress) :
    HabitLog.save l habit logs n = .error .progressExceedsTarget ∧
    ∀ (db : DB) (uid today d : Nat),
      db.habits.find? (fun h => h.id == habit.id && h.userId == uid) = some habit →
      db.logs.find? (fun x => x.habitId == habit.id && x.date == today) = none →
      applyOp db (.logAdd uid habit.id today d l.progress) = (db, .invalidForm) := by
  constructor
  · unfold HabitLog.save
    exact if_pos hgt
  · intro db uid today d hfind hnone
    show log_add db uid habit.id today d l.progress = (db, .invalidForm)
    unfold log_add
    simp only [hfind, hnone]
    rw [if_pos hgt]

/-- Witness for C2: progress 7 against target 5 is rejected by save and
by the log_add view, which leaves the database untouched. -/
theorem save_rejects_progress_above_target_witness :
    (5:Nat) < 7 ∧
    HabitLog.save ⟨none, 0, 0, 7, false, .pending⟩ ⟨0, 0, 5⟩ [] 0 =
      .error .progressExceedsTarget ∧
    applyOp dbHabit (.logAdd 0 0 0 0 7) = (dbHabit, .invalidForm) := by
  refine ⟨by decide, ?_, ?_⟩
  · exact (save_rejects_progress_above_target ⟨none, 0, 0, 7, false, .pending⟩
      ⟨0, 0, 5⟩ [] 0 (by decide)).1
  · exact (save_rejects_progress_above_target ⟨none, 0, 0, 7, false, .pending⟩
      ⟨0, 0, 5⟩ [] 0 (by decide)).2 dbHabit 0 0 0 (by rfl) (by rfl)

/-- C3: evaluation of reward_claim at a user with 100 points claiming a
50-point reward.  The view debits and persists the 50 points and then
crashes with AttributeError on reward.claimed_by (views.py:264), a field
Reward does not declare (models.py:350-363); the reward row is untouched
(is_claimed stays False), so the debit and the claim record are not
atomic: the debit happens and the claim record never does. -/
theorem reward_claim_debits_then_crashes :
    applyOp dbClaim (.rewardClaim 0 0) =
      ({ dbClaim with users := [⟨0, 7, 50⟩] }, .crashAttributeError) ∧
    (applyOp dbClaim (.rewardClaim 0 0)).1.rewards = [⟨0, 0, 50, false⟩] :=
  ⟨rfl, rfl⟩

/-- C4: a claim attempt with user.points < reward.points_required reports
failure and has no side effect at all: the database is returned unchanged
(views.py:266-268). -/
theorem reward_claim_insufficient_is_pure_failure (db : DB) (uid pk : Nat)
    (reward : Reward) (user : User)
    (hr : db.rewards.find? (fun r => r.id == pk) = some reward)
    (hu : db.users.find? (fun u => u.id == uid) = some user)
    (hlt : user.points < (reward.points_required : Int)) :
    applyOp db (.rewardClaim uid pk) = (db, .errorMsg) := by
  show reward_claim db uid pk = _
  unfold reward_claim
  simp only [hr, hu]
  rw [if_neg (not_le.mpr hlt)]

/-- Witness for C4: a user with 10 points claiming a 50-point reward. -/
theorem reward_claim_insufficient_is_pure_failure_witness :
    (10:Int) < ((50:Nat) : Int) ∧
    applyOp dbPoor (.rewardClaim 0 0) = (dbPoor, .errorMsg) :=
  ⟨by decide, reward_claim_insufficient_is_pure_failure dbPoor 0 0
    ⟨0, 0, 50, false⟩ ⟨0, 7, 10⟩ rfl rfl (by decide)⟩

/-- C5: longest_streak ≥ current_streak holds for every Streak row in
every reachable state: rows are only ever created with the declared
defaults 0/0 (models.py:196-197) and no operation of the system writes
the counters. -/
theorem streak_longest_ge_current_always (db : DB) (h : Reachable db) :
    ∀ s ∈ db.streaks, s.current_streak ≤ s.longest_streak :=
  streakInv_reachable db h

/-- Witness for C5: a reachable state holding one streak row. -/
theorem streak_longest_ge_current_always_witness :
    (runOps initDB [.register 7, .habitAdd 0 5, .streakCreate 0 0]).streaks =
      [⟨0, 0, 0, 0⟩] ∧
    ∀ s ∈ (runOps initDB [.register 7, .habitAdd 0 5, .streakCreate 0 0]).streaks,
      s.current_streak ≤ s.longest_streak :=
  ⟨rfl, streak_longest_ge_current_always _ (reachable_runOps Reachable.init _)⟩

/-- C6: in every reachable state the (habit, date) pairs of the log table
are pairwise distinct (unique_together, models.py:155, enforced through
full_clean inside HabitLog.save), and submitting a day's progress again
when a log for (habit, today) already exists changes nothing and
redirects to log_edit of the existing row (views.py:484-486). -/
theorem at_most_one_log_per_habit_date :
    (∀ db : DB, Reachable db → (db.logs.map LogKey).Nodup) ∧
    (∀ (db : DB) (uid habitId today d p : Nat) (ex : HabitLog),
      db.logs.find? (fun l => l.habitId == habitId && l.date == today) = some ex →
      ∀ habit : Habit,
        db.habits.find? (fun h => h.id == habitId && h.userId == uid) = some habit →
        applyOp db (.logAdd uid habitId today d p) = (db, .redirectEdit (ex.id.getD 0))) := by
  constructor
  · intro db h
    exact (logsInv_reachable db h).2
  · intro db uid habitId today d p ex hex habit hhabit
    show log_add db uid habitId today d p = _
    unfold log_add
    simp only [hhabit, hex]

/-- Witness for C6: a reachable state with one log; resubmitting the same
habit and day redirects to the existing row and leaves the state as it
was. -/
theorem at_most_one_log_per_habit_date_witness :
    ((runOps initDB [.register 7, .habitAdd 0 5, .logAdd 0 0 0 0 3]).logs.map LogKey).Nodup ∧
    applyOp (runOps initDB [.register 7, .habitAdd 0 5, .logAdd 0 0 0 0 3])
        (.logAdd 0 0 0 0 2) =
      (runOps initDB [.register 7, .habitAdd 0 5, .logAdd 0 0 0 0 3], .redirectEdit 0) := by
  constructor
  · exact at_most_one_log_per_habit_date.1 _ (reachable_runOps Reachable.init _)
  · exact at_most_one_log_per_habit_date.2 _ 0 0 0 0 2
      ⟨some 0, 0, 0, 3, false, .pending⟩ (by rfl) ⟨0, 0, 5⟩ (by rfl)

/-- C7: evaluation of friend_request_send at failing inputs.  Sending a
friend request to oneself (user 0, own email 7) and to a user one is
already friends with (email 8) both die with an uncaught exception
(HTTP 500) — forms.py:263 dereferences the unset from_user FK of the
form's blank instance, and views.py:151 reads cleaned_data with the wrong
key — so neither case is rejected with a validation error visible to the
sender, and no rejection of duplicates ever runs. -/
theorem friend_request_send_crashes_uncaught :
    applyOp dbSend (.friendRequestSend 0 7) = (dbSend, .crashDoesNotExist) ∧
    applyOp dbSend (.friendRequestSend 0 8) = (dbSend, .crashDoesNotExist) :=
  ⟨rfl, rfl⟩

/-- C8: accepting a pending friend request from A addressed to B creates
the Friendship rows in both directions and deletes the request, all
within the one request (views.py:167-173). -/
theorem accept_creates_both_directions_and_deletes_request (db : DB) (uid pk : Nat)
    (fr : FriendRequest)
    (h : db.friendRequests.find? (fun x => x.id == pk && x.to_user == uid) = some fr) :
    (applyOp db (.friendRequestAccept uid pk)).2 = .success ∧
    (∃ f ∈ (applyOp db (.friendRequestAccept uid pk)).1.friendships,
        f.user = uid ∧ f.friend = fr.from_user) ∧
    (∃ f ∈ (applyOp db (.friendRequestAccept uid pk)).1.friendships,
        f.user = fr.from_user ∧ f.friend = uid) ∧
    ∀ x ∈ (applyOp db (.friendRequestAccept uid pk)).1.friendRequests, x.id ≠ pk := by
  have hres : applyOp db (.friendRequestAccept uid pk) =
      ({ db with
          friendships := get_or_create_friendship
            (get_or_create_friendship db.friendships uid fr.from_user) fr.from_user uid,
          friendRequests := db.friendRequests.filter (fun x => x.id != pk) }, .success) := by
    show friend_request_accept db uid pk = _
    unfold friend_request_accept
    rw [h]
  rw [hres]
  refine ⟨rfl, ?_, ?_, ?_⟩
  · obtain ⟨f, hf, h1, h2⟩ := get_or_create_friendship_mem db.friendships uid fr.from_user
    exact ⟨f, get_or_create_friendship_mono _ _ _ f hf, h1, h2⟩
  · exact get_or_create_friendship_mem _ fr.from_user uid
  · intro x hx
    exact bne_iff_ne.mp (List.mem_filter.mp hx).2

/-- Witness for C8: user 2 accepts the pending request from user 1. -/
theorem accept_creates_both_directions_and_deletes_request_witness :
    (applyOp dbAccept (.friendRequestAccept 2 0)).2 = .success ∧
    (∃ f ∈ (applyOp dbAccept (.friendRequestAccept 2 0)).1.friendships,
        f.user = 2 ∧ f.friend = 1) ∧
    (∃ f ∈ (applyOp dbAccept (.friendRequestAccept 2 0)).1.friendships,
        f.user = 1 ∧ f.friend = 2) ∧
    ∀ x ∈ (applyOp dbAccept (.friendRequestAccept 2 0)).1.friendRequests, x.id ≠ 0 :=
  accept_creates_both_directions_and_deletes_request dbAccept 2 0 ⟨0, 1, 2⟩ rfl

/-- C9: for target_per_day ≥ 1 the displayed completion value is exactly
(progress / target_per_day) * 100 rounded to 2 decimal places, and no
upper clamp is applied: doubling the target's worth of progress displays
as 200, not 100 (models.py:164-165). -/
theorem completion_value_matches_spec_unclamped (p t : Nat) (ht : 1 ≤ t) :
    HabitLog.completion_value p t = specCompletionDisplay p t ∧
    HabitLog.completion_value (2 * t) t = 200 := by
  refine ⟨rfl, ?_⟩
  have ht0 : (t : ℚ) ≠ 0 := Nat.cast_ne_zero.mpr (by omega)
  unfold HabitLog.completion_value
  have h2 : ((2 * t : Nat) : ℚ) / (t : ℚ) * 100 = 200 := by
    push_cast
    field_simp
    ring
  rw [h2]
  unfold pyRound2
  rw [show ((200:ℚ) * 100) = ((20000:ℤ) : ℚ) by norm_num, pyRound_intCast]
  norm_num

/-- Witness for C9 at progress 1, target 3 (and the unclamped 200% point
at progress 6). -/
theorem completion_value_matches_spec_unclamped_witness :
    (1:Nat) ≤ 3 ∧
    (HabitLog.completion_value 1 3 = specCompletionDisplay 1 3 ∧
     HabitLog.completion_value 6 3 = 200) :=
  ⟨by decide, completion_value_matches_spec_unclamped 1 3 (by decide)⟩

/-- C10: user.points is non-negative in every reachable state: users are
created with the default 0 (models.py:37) and reward_claim, the only
operation that writes points, debits only under the sufficiency guard
(views.py:261-263). -/
theorem user_points_nonneg_always (db : DB) (h : Reachable db) :
    ∀ u ∈ db.users, 0 ≤ u.points :=
  pointsInv_reachable db h

/-- Witness for C10: a reachable state holding one user. -/
theorem user_points_nonneg_always_witness :
    (runOps initDB [.register 7]).users = [⟨0, 7, 0⟩] ∧
    ∀ u ∈ (runOps initDB [.register 7]).users, 0 ≤ u.points :=
  ⟨rfl, user_points_nonneg_always _ (reachable_runOps Reachable.init _)⟩

end StreakUp
